import Mathlib

/-!
Verification development for the multi-site job-scraping engine of the
JobSeeker repository (`backend/app/services/scraper.py`).

The embedding is shallow: each Python function of the scraping engine is
translated into a pure Lean function.  Wall-clock time is passed in
explicitly (seconds since the epoch, as `Int`; a calendar date is the
floor-division of such a time by 86400).  Asynchronous sleeps are not
performed, but every sleep the code would issue is recorded in the
returned value, so "which delays does this call incur" is provable.
Python exceptions are modelled with explicit outcome constructors /
`Except` results.  Randomness (the jitter draw) is an explicit argument.
-/

namespace JobSeeker

/-! ### String helpers

Python's substring test `needle in hay` over lowercased strings, modelled
over character lists. -/

/-- `leadsWithChars n h` holds when list `n` is an initial segment of `h`. -/
def leadsWithChars : List Char → List Char → Bool
  | [], _ => true
  | _ :: _, [] => false
  | a :: as, b :: bs => a == b && leadsWithChars as bs

/-- Substring test on character lists: does `needle` occur contiguously in `hay`? -/
def substrAux (needle : List Char) : List Char → Bool
  | [] => leadsWithChars needle []
  | c :: rest => leadsWithChars needle (c :: rest) || substrAux needle rest

/-- Python's `needle in hay` on strings. -/
def strContains (hay needle : String) : Bool :=
  substrAux needle.toList hay.toList

/-- Python's `str.lower()` (character-wise; the engine only compares ASCII
indicator strings and domains). -/
def strToLower (s : String) : String :=
  String.mk (s.toList.map Char.toLower)

/-- Python's `str.strip()`: drop whitespace from both ends. -/
def strTrim (s : String) : String :=
  String.mk (((s.toList.dropWhile Char.isWhitespace).reverse.dropWhile
    Char.isWhitespace).reverse)

/-! ### Time model

The code manipulates `datetime.now()`; we model an instant as whole
seconds since the epoch and a calendar date as the day index obtained by
floor division (matching `datetime.date()` for timezone-naive datetimes). -/

/-- Seconds in one hour (`timedelta(hours=1)`). -/
def hourSecs : Int := 3600

/-- `datetime.date()` of an instant: its calendar-day index. -/
def dateOf (t : Int) : Int := Int.fdiv t 86400

/-! ### `ScrapingConfig` (scraper.py, `@dataclass ScrapingConfig`) -/

structure ScrapingConfig where
  min_delay : Nat := 5000
  max_delay : Nat := 15000
  requests_per_hour : Nat := 10
  max_daily_requests : Nat := 50
  rotate_user_agents : Bool := true
  use_proxy : Bool := false
  proxy_list : List String := []
  respect_robots_txt : Bool := true
deriving Repr, DecidableEq

/-! ### `RateLimiter` (scraper.py lines 72-108) -/

/-- The mutable fields of `RateLimiter`: `request_history` (timestamps),
`daily_requests`, `last_reset` (a calendar-day index). -/
structure RateLimiterState where
  request_history : List Int
  daily_requests : Nat
  last_reset : Int
deriving Repr, DecidableEq

/-- `RateLimiter.__init__`: empty history, zero daily count, reset date = today. -/
def initRateLimiter (today : Int) : RateLimiterState :=
  { request_history := [], daily_requests := 0, last_reset := today }

/-- Outcome of one `wait_if_needed` call.  `rejected` is the
`raise Exception("Daily request limit exceeded")` path; `valueError` is the
`min([])` error Python would raise when the hourly branch fires on an empty
window (possible only when `requests_per_hour = 0`); `ok` is normal return. -/
inductive Outcome where
  | rejected
  | valueError
  | ok
deriving Repr, DecidableEq

/-- One sleep the code performs, in order: the cooperative hourly-window wait
(`await asyncio.sleep(wait_time)`, seconds) or the random jitter sleep
(`await asyncio.sleep(delay)`, recorded here in milliseconds as drawn by
`random.randint(min_delay, max_delay)`). -/
inductive SleepEvent where
  | hourly (secs : Int)
  | jitterSleep (ms : Nat)
deriving Repr, DecidableEq

/-- Python's `min` over a list (as an `Option`; `min([])` raises). -/
def listMin : List Int → Option Int
  | [] => none
  | x :: xs =>
    match listMin xs with
    | none => some x
    | some m => some (min x m)

/-- The calendar-day rollover at the top of `wait_if_needed`:
`if now.date() > self.last_reset: daily_requests = 0; last_reset = now.date()`. -/
def rolled (now : Int) (st : RateLimiterState) : RateLimiterState :=
  if st.last_reset < dateOf now then
    { st with daily_requests := 0, last_reset := dateOf now }
  else st

/-- `RateLimiter.wait_if_needed` (scraper.py lines 82-108).  `jitterDelay` is
the concrete value drawn by `random.randint(min_delay, max_delay)`.  Returns
the outcome, the state after the call, and the list of sleeps performed. -/
def wait_if_needed (cfg : ScrapingConfig) (jitterDelay : Nat) (now : Int)
    (st : RateLimiterState) : Outcome × RateLimiterState × List SleepEvent :=
  let st1 := rolled now st
  if cfg.max_daily_requests ≤ st1.daily_requests then
    (Outcome.rejected, st1, [])
  else
    let hist := st1.request_history.filter (fun t => now - hourSecs < t)
    if cfg.requests_per_hour ≤ hist.length then
      match listMin hist with
      | none => (Outcome.valueError, { st1 with request_history := hist }, [])
      | some oldest =>
        let waitT := oldest + hourSecs - now
        (Outcome.ok,
         { st1 with request_history := hist ++ [now],
                    daily_requests := st1.daily_requests + 1 },
         (if 0 < waitT then [SleepEvent.hourly waitT] else [])
           ++ [SleepEvent.jitterSleep jitterDelay])
    else
      (Outcome.ok,
       { st1 with request_history := hist ++ [now],
                  daily_requests := st1.daily_requests + 1 },
       [SleepEvent.jitterSleep jitterDelay])

/-- A sequence of `Acquire()` calls on one limiter: each call supplies the
instant at which it runs and the jitter drawn for it. -/
def runAcquires (cfg : ScrapingConfig) :
    List (Int × Nat) → RateLimiterState →
    RateLimiterState × List (Outcome × List SleepEvent)
  | [], st => (st, [])
  | (now, j) :: rest, st =>
    let r := wait_if_needed cfg j now st
    let rec1 := runAcquires cfg rest r.2.1
    (rec1.1, (r.1, r.2.2) :: rec1.2)

/-- Number of successful acquisitions in a result list. -/
def countOk (rs : List (Outcome × List SleepEvent)) : Nat :=
  rs.countP (fun r => decide (r.1 = Outcome.ok))

/-! ### Site profile registry (`JobSiteScraper.SITE_CONFIGS`) -/

/-- One entry of `SITE_CONFIGS`: the per-site selector lists and flags. -/
structure SiteProfile where
  name : String
  description_selectors : List String
  title_selectors : List String
  company_selectors : List String
  location_selectors : List String
  modal_selectors : List String
  dynamic_loading : Bool := false
  extra_wait_time : Nat := 5000
  anti_bot_protection : Bool := false
deriving Repr, DecidableEq

def linkedinProfile : SiteProfile :=
  { name := "LinkedIn"
    description_selectors :=
      [".description__text--rich", ".description__text",
       ".jobs-description__content", ".show-more-less-html__markup"]
    title_selectors :=
      ["h1.jobs-unified-top-card__job-title", "h1.topcard__title",
       ".job-details-jobs-unified-top-card__job-title h1"]
    company_selectors :=
      [".jobs-unified-top-card__company-name a", ".topcard__org-name-link",
       ".job-details-jobs-unified-top-card__company-name a"]
    location_selectors :=
      [".jobs-unified-top-card__bullet", ".topcard__flavor--bullet"]
    modal_selectors :=
      ["[data-test-modal=\"guest-frontend-challenge-modal\"] button[aria-label=\"Dismiss\"]",
       ".modal__dismiss", ".artdeco-modal__dismiss", "button[aria-label=\"Dismiss\"]"] }

def naukriProfile : SiteProfile :=
  { name := "Naukri"
    description_selectors :=
      ["section.styles_job-desc-container_txpYf", ".styles_job-desc-container_txpYf",
       "section.styles_job-desc-container__txpYf", ".styles_job-desc-container__txpYf",
       ".job-desc-container", ".jd-description",
       "[class*=\"job-desc\"]", "[class*=\"description\"]"]
    title_selectors :=
      [".jd-header-title", ".job-title", "h1", "[class*=\"title\"]"]
    company_selectors :=
      [".jd-header-company-name", ".company-name", ".comp-name", "[class*=\"company\"]"]
    location_selectors :=
      [".jd-job-loc", ".job-location", ".location", "[class*=\"location\"]"]
    modal_selectors :=
      [".modal-close", ".close-modal", "button[aria-label=\"Close\"]"]
    dynamic_loading := true
    extra_wait_time := 8000
    anti_bot_protection := true }

def wellfoundProfile : SiteProfile :=
  { name := "Wellfound"
    description_selectors := ["#job-description", ".job-description", ".description-content"]
    title_selectors := [".job-title", "h1.title", "h1"]
    company_selectors := [".company-name", ".startup-name", ".company-link"]
    location_selectors := [".job-location", ".location", ".remote-ok"]
    modal_selectors := [".modal-close", "button[aria-label=\"Close\"]"] }

def indeedProfile : SiteProfile :=
  { name := "Indeed"
    description_selectors :=
      ["#jobDescriptionText", ".jobsearch-jobDescriptionText", ".job-description"]
    title_selectors :=
      [".jobsearch-JobInfoHeader-title", "h1.jobsearch-JobInfoHeader-title", ".job-title"]
    company_selectors :=
      [".jobsearch-InlineCompanyRating .icl-u-lg-mr--sm", ".company-name",
       "[data-testid=\"inlineHeader-companyName\"]"]
    location_selectors :=
      [".jobsearch-JobInfoHeader-subtitle", ".job-location", "[data-testid=\"job-location\"]"]
    modal_selectors := [".popover-x-button", "button[aria-label=\"close\"]"] }

def internshalaProfile : SiteProfile :=
  { name := "Internshala"
    description_selectors := [".internship_details", ".internship-details", ".job-description"]
    title_selectors := [".profile", ".internship-title", "h1"]
    company_selectors := [".company-name", ".company", ".org-name"]
    location_selectors := [".location_link", ".locations", ".location"]
    modal_selectors := [".modal-close", "button[aria-label=\"Close\"]"] }

/-- `SITE_CONFIGS`, in the source's (insertion-order-preserving) key order.
Note: there is no `"generic"` entry. -/
def SITE_CONFIGS : List (String × SiteProfile) :=
  [("linkedin.com", linkedinProfile),
   ("naukri.com", naukriProfile),
   ("wellfound.com", wellfoundProfile),
   ("indeed.com", indeedProfile),
   ("internshala.com", internshalaProfile)]

/-- `SITE_CONFIGS.keys()`, in order. -/
def site_keys : List String := SITE_CONFIGS.map Prod.fst

/-- `SITE_CONFIGS.get(site_key, SITE_CONFIGS['linkedin.com'])` — the fallback
lookup performed in `scrape_job_description` (scraper.py line 497). -/
def siteConfigFor (key : String) : SiteProfile :=
  match SITE_CONFIGS.find? (fun p => p.1 == key) with
  | some p => p.2
  | none => linkedinProfile

/-! ### Site detection (`JobSiteScraper.detect_job_site`, lines 398-407) -/

/-- `urlparse(url).netloc`: the authority component — the text after the first
`//` up to the following `/`, `?` or `#` (empty when the URL has no `//`). -/
def netlocAux : List Char → List Char
  | [] => []
  | '/' :: '/' :: rest => rest.takeWhile (fun c => c != '/' && c != '?' && c != '#')
  | _ :: rest => netlocAux rest

def netloc (url : String) : String :=
  String.mk (netlocAux url.toList)

/-- The `for site_key in SITE_CONFIGS.keys()` loop body: first key contained
in the lowercased domain wins; otherwise `"generic"`. -/
def detectGo (domain : String) : List String → String
  | [] => "generic"
  | k :: rest => if strContains domain k then k else detectGo domain rest

/-- `JobSiteScraper.detect_job_site`: lowercase the URL's host, return the
first registered site key occurring in it as a substring, else `"generic"`. -/
def detect_job_site (url : String) : String :=
  detectGo (strToLower (netloc url)) site_keys

/-! ### Page model

A `Page` describes the answers the rendered DOM gives to the engine: the page
title, the full page content, and, per CSS selector, what
`page.locator(sel)` reports about its matches.  A raised playwright error
while querying a selector is modelled by the `raises` flag (the failure is
taken to happen at the first awaited locator call). -/

/-- What `page.locator(sel)` reports: match count, visibility of the first
match, its inner text, and whether the locator calls raise. -/
structure SelectorView where
  count : Nat
  firstVisible : Bool
  firstText : String
  raises : Bool
  raiseMsg : String
deriving Repr, DecidableEq

structure Page where
  title : String
  content : String
  query : String → SelectorView

/-! ### Extraction engine (lines 437-480) -/

/-- `JobSiteScraper.extract_text_by_selectors` (lines 437-447): first visible
match wins; a visible element with empty raw text returns `None` (ending the
loop); a raised locator error skips to the next selector. -/
def extract_text_by_selectors (page : Page) : List String → Option String
  | [] => none
  | sel :: rest =>
    let v := page.query sel
    if v.raises then extract_text_by_selectors page rest
    else if v.firstVisible then
      if v.firstText == "" then none else some (strTrim v.firstText)
    else extract_text_by_selectors page rest

/-- One entry of the per-selector diagnostic trail built by
`extract_text_by_selectors_with_debug`.  `i` is the 0-based selector index
(the source renders it 1-based inside a semicolon-joined string); each
constructor abstracts one of the appended format strings. -/
inductive TraceEntry where
  | notFound (i : Nat) (sel : String)
  | found (i : Nat) (sel : String) (count : Nat)
  | success (i : Nat) (chars : Nat)
  | emptyText (i : Nat)
  | notVisible (i : Nat)
  | errorNote (i : Nat) (msg : String)
deriving Repr, DecidableEq

/-- The selector index a trace entry refers to. -/
def traceIdx : TraceEntry → Nat
  | .notFound i _ => i
  | .found i _ _ => i
  | .success i _ => i
  | .emptyText i => i
  | .notVisible i => i
  | .errorNote i _ => i

/-- The `for i, selector in enumerate(selectors)` loop of
`extract_text_by_selectors_with_debug`, with the trace accumulated in order. -/
def extractDebugGo (page : Page) :
    List String → Nat → List TraceEntry → Option String × List TraceEntry
  | [], _, acc => (none, acc)
  | sel :: rest, i, acc =>
    let v := page.query sel
    if v.raises then
      extractDebugGo page rest (i + 1) (acc ++ [TraceEntry.errorNote i v.raiseMsg])
    else if v.count = 0 then
      extractDebugGo page rest (i + 1) (acc ++ [TraceEntry.notFound i sel])
    else
      let acc1 := acc ++ [TraceEntry.found i sel v.count]
      if v.firstVisible then
        if v.firstText != "" && strTrim v.firstText != "" then
          (some (strTrim v.firstText), acc1 ++ [TraceEntry.success i v.firstText.length])
        else
          extractDebugGo page rest (i + 1) (acc1 ++ [TraceEntry.emptyText i])
      else
        extractDebugGo page rest (i + 1) (acc1 ++ [TraceEntry.notVisible i])

/-- `JobSiteScraper.extract_text_by_selectors_with_debug` (lines 449-480). -/
def extract_text_by_selectors_with_debug (page : Page) (selectors : List String) :
    Option String × List TraceEntry :=
  extractDebugGo page selectors 0 []

/-! ### Bot-challenge handler (`handle_cloudflare_verification`, lines 360-396) -/

/-- A snapshot of the page (title and full content) at one poll attempt of
the verification loop; the page may change between attempts. -/
structure PageSnapshot where
  title : String
  content : String
deriving Repr, DecidableEq

def cloudflare_indicators : List String :=
  ["just a moment", "please wait", "checking your browser",
   "cloudflare", "ray id", "cf-browser-verification"]

/-- `is_cloudflare`: any indicator occurs in the lowercased title or the
lowercased content. -/
def pageIsCloudflare (p : PageSnapshot) : Bool :=
  cloudflare_indicators.any (fun ind => strContains (strToLower p.title) ind)
    || cloudflare_indicators.any (fun ind => strContains (strToLower p.content) ind)

/-- The `while attempt < max_attempts` loop, by remaining-attempt fuel;
`attempt` is the index of the snapshot inspected next, and each failed
inspection is followed by a recorded `wait_for_timeout(5000)`. -/
def cfGo (pages : Nat → PageSnapshot) : Nat → Nat → List Nat → Bool × List Nat
  | 0, _, sleeps => (false, sleeps)
  | fuel + 1, attempt, sleeps =>
    if pageIsCloudflare (pages attempt) then
      cfGo pages fuel (attempt + 1) (sleeps ++ [5000])
    else (true, sleeps)

/-- `JobSiteScraper.handle_cloudflare_verification`: up to `max_attempts = 6`
inspections, 5000 ms between them; `true` as soon as one inspection is clear,
`false` once all attempts are exhausted.  Also returns the sleeps performed. -/
def handle_cloudflare_verification (pages : Nat → PageSnapshot) : Bool × List Nat :=
  cfGo pages 6 0 []

/-! ### `scrape_job_description` (lines 482-631) -/

def access_denied_indicators : List String :=
  ["access denied", "blocked", "forbidden", "captcha",
   "bot detection", "unusual traffic"]

/-- `is_blocked`: any hard-block indicator occurs in the lowercased page
title or the lowercased page content (checked right after navigation). -/
def pageIsBlocked (page : Page) : Bool :=
  access_denied_indicators.any (fun ind => strContains (strToLower page.title) ind)
    || access_denied_indicators.any (fun ind => strContains (strToLower page.content) ind)

/-- Exceptions that escape `scrape_job_description` (they are raised before
its `try` block): the `RuntimeError` for an uninitialized browser context,
and a failure of `self.context.new_page()`. -/
inductive Thrown where
  | contextNotInitialized
  | newPageFailed
deriving Repr, DecidableEq

/-- The `error` field of a result, kept structured: the caught exception
message (`str(e)`), the hard-block message built from the site name, or the
description-extraction failure carrying the per-selector trace. -/
inductive ScrapeError where
  | exceptionMsg (msg : String)
  | blockedMsg (site : String)
  | extractionFailed (trace : List TraceEntry)
deriving Repr, DecidableEq

/-- The result record of `scrape_job_description`.  `modal_closed` and
`access_blocked` are `Option`s because the source's result dictionaries carry
those keys only on some paths (`none` = key absent).  The `proxy_used` and
`timestamp` fields are not modelled. -/
structure ScrapeResult where
  url : String
  site : String
  title : Option String
  company : Option String
  location : Option String
  description : Option String
  modal_closed : Option Bool
  success : Bool
  error : Option ScrapeError
  access_blocked : Option Bool
deriving Repr, DecidableEq

/-- The except-branch result (lines 615-631): site `"unknown"`, all fields
empty, `modal_closed: False`, the exception message as error. -/
def exceptResult (job_url : String) (e : ScrapeError) : ScrapeResult :=
  { url := job_url, site := "unknown", title := none, company := none,
    location := none, description := none, modal_closed := some false,
    success := false, error := some e, access_blocked := none }

/-- The hard-block result (lines 521-534): no extraction is attempted, the
result carries no diagnostics, `description` is `None`, `access_blocked: True`. -/
def blockedResult (job_url site_name : String) : ScrapeResult :=
  { url := job_url, site := site_name, title := none, company := none,
    location := none, description := none, modal_closed := none,
    success := false, error := some (ScrapeError.blockedMsg site_name),
    access_blocked := some true }

/-- The environment one scrape call runs against: whether the browser context
was initialized (`start()` ran), whether `new_page()` succeeds, whether
`page.goto` raises (with its message), the rendered page, the snapshots the
verification poll loop sees, and the outcome of `close_modals`.  Fixed waits
and scrolls are not modelled — they change no state the result depends on. -/
structure ScrapeEnv where
  context_initialized : Bool
  new_page_ok : Bool
  nav_error : Option String
  page : Page
  cfPages : Nat → PageSnapshot
  modal_closed : Bool

/-- `JobSiteScraper.scrape_job_description`.  Returns the thrown exception or
the result record, together with the rate-limiter state after the call.  The
`raise RuntimeError` and the `new_page()` call sit before the `try` block, so
their failures propagate; every exception inside the `try` (rate-limit
rejection, `min([])`, navigation failure) is converted by the
`except Exception` handler into an `exceptResult`. -/
def scrape_job_description (cfg : ScrapingConfig) (env : ScrapeEnv) (job_url : String)
    (now : Int) (jitterDelay : Nat) (st : RateLimiterState) :
    Except Thrown ScrapeResult × RateLimiterState :=
  if !env.context_initialized then
    (Except.error Thrown.contextNotInitialized, st)
  else if !env.new_page_ok then
    (Except.error Thrown.newPageFailed, st)
  else
    match wait_if_needed cfg jitterDelay now st with
    | (Outcome.rejected, st1, _) =>
      (Except.ok (exceptResult job_url (ScrapeError.exceptionMsg "Daily request limit exceeded")), st1)
    | (Outcome.valueError, st1, _) =>
      (Except.ok (exceptResult job_url (ScrapeError.exceptionMsg "min() arg is an empty sequence")), st1)
    | (Outcome.ok, st1, _) =>
      let site_config := siteConfigFor (detect_job_site job_url)
      let site_name := site_config.name
      match env.nav_error with
      | some msg => (Except.ok (exceptResult job_url (ScrapeError.exceptionMsg msg)), st1)
      | none =>
        if pageIsBlocked env.page then
          (Except.ok (blockedResult job_url site_name), st1)
        else
          let _cloudflare_success := (handle_cloudflare_verification env.cfPages).1
          let desc := extract_text_by_selectors_with_debug env.page site_config.description_selectors
          (Except.ok
            { url := job_url
              site := site_name
              title := extract_text_by_selectors env.page site_config.title_selectors
              company := extract_text_by_selectors env.page site_config.company_selectors
              location := extract_text_by_selectors env.page site_config.location_selectors
              description := desc.1
              modal_closed := some env.modal_closed
              success := desc.1.isSome
              error := if desc.1.isSome then none
                       else some (ScrapeError.extractionFailed desc.2)
              access_blocked := none }, st1)

/-! ### Derived predicates used in statements -/

/-- First registered site key that occurs in `domain` (specification-side
formulation of the detection loop, for comparison with `detectGo`). -/
def firstKeyMatch (domain : String) : Option String :=
  site_keys.find? (fun k => strContains domain k)

/-- A selector "succeeds" for `extract_text_by_selectors_with_debug`: the
locator calls do not raise, at least one element matches, the first match is
visible, and its text is non-empty both raw and after trimming. -/
def selSucceeds (page : Page) (sel : String) : Bool :=
  let v := page.query sel
  !v.raises && !(decide (v.count = 0)) && v.firstVisible
    && (v.firstText != "" && strTrim v.firstText != "")

/-! ### Concrete fixtures (used by witnesses and counterexamples) -/

/-- A DOM holding exactly `<div class="description">Full job text...</div>`:
only the selector `.description` matches anything (the end-to-end scenario
page for an unmatched careers URL). -/
def pageGeneric : Page :=
  { title := "Job 42"
    content := "lots of text"
    query := fun s =>
      if s == ".description" then ⟨1, true, "Full job text...", false, ""⟩
      else ⟨0, false, "", false, ""⟩ }

/-- A benign environment: context started, page created, navigation fine, no
block and no challenge markers. -/
def envGeneric : ScrapeEnv :=
  { context_initialized := true
    new_page_ok := true
    nav_error := none
    page := pageGeneric
    cfPages := fun _ => ⟨"Job 42", "lots of text"⟩
    modal_closed := false }

/-- A page whose first description selector (LinkedIn profile order) yields
non-empty visible text. -/
def pageLinked : Page :=
  { title := "Engineer"
    content := "job page"
    query := fun s =>
      if s == ".description__text--rich" then ⟨2, true, "  Great job  ", false, ""⟩
      else ⟨0, false, "", false, ""⟩ }

def envLinked : ScrapeEnv :=
  { context_initialized := true
    new_page_ok := true
    nav_error := none
    page := pageLinked
    cfPages := fun _ => ⟨"Engineer", "job page"⟩
    modal_closed := true }

/-- A page that announces a hard block in its content. -/
def pageDenied : Page :=
  { title := "Error"
    content := "ACCESS DENIED - automated requests are not allowed"
    query := fun _ => ⟨0, false, "", false, ""⟩ }

def envDenied : ScrapeEnv :=
  { context_initialized := true
    new_page_ok := true
    nav_error := none
    page := pageDenied
    cfPages := fun _ => ⟨"Error", "ACCESS DENIED - automated requests are not allowed"⟩
    modal_closed := false }

/-- Like `envLinked`, but the verification poll loop sees a challenge page
on every attempt. -/
def envCF : ScrapeEnv :=
  { context_initialized := true
    new_page_ok := true
    nav_error := none
    page := pageLinked
    cfPages := fun _ => ⟨"Just a moment", "checking your browser"⟩
    modal_closed := false }

/-- The extraction-order scenario page: selectors `.a`, `.b`, `.c`, where
only `.b` matches a visible element with non-empty text. -/
def pageABC : Page :=
  { title := "t"
    content := "c"
    query := fun s =>
      if s == ".b" then ⟨1, true, "B text", false, ""⟩
      else ⟨0, false, "", false, ""⟩ }

/-- Limiter config with a daily cap of 2 and a roomy hourly budget. -/
def cfgK : ScrapingConfig :=
  { min_delay := 0, max_delay := 0, requests_per_hour := 10, max_daily_requests := 2 }

/-- Limiter config with `requests_per_hour = 3` (the hourly-window scenario). -/
def cfg3 : ScrapingConfig :=
  { min_delay := 0, max_delay := 0, requests_per_hour := 3, max_daily_requests := 50 }

/-- Limiter state after three successful acquisitions at `t = 0` on a fresh
limiter created on day 0. -/
def st3 : RateLimiterState :=
  (runAcquires cfg3 [(0, 5), (0, 5), (0, 5)] (initRateLimiter 0)).1

/-- Default config instance for scrape-pipeline fixtures. -/
def cfgDflt : ScrapingConfig := {}

/-! ### Rate-limiter lemmas -/

theorem wif_unfold (cfg : ScrapingConfig) (j : Nat) (now : Int) (st : RateLimiterState) :
    wait_if_needed cfg j now st =
      if cfg.max_daily_requests ≤ (rolled now st).daily_requests then
        (Outcome.rejected, rolled now st, [])
      else if cfg.requests_per_hour ≤
          ((rolled now st).request_history.filter (fun t => now - hourSecs < t)).length then
        match listMin ((rolled now st).request_history.filter (fun t => now - hourSecs < t)) with
        | none =>
          (Outcome.valueError,
           { rolled now st with
               request_history :=
                 (rolled now st).request_history.filter (fun t => now - hourSecs < t) }, [])
        | some oldest =>
          (Outcome.ok,
           { rolled now st with
               request_history :=
                 (rolled now st).request_history.filter (fun t => now - hourSecs < t) ++ [now]
               daily_requests := (rolled now st).daily_requests + 1 },
           (if 0 < oldest + hourSecs - now then [SleepEvent.hourly (oldest + hourSecs - now)]
            else []) ++ [SleepEvent.jitterSleep j])
      else
        (Outcome.ok,
         { rolled now st with
             request_history :=
               (rolled now st).request_history.filter (fun t => now - hourSecs < t) ++ [now]
             daily_requests := (rolled now st).daily_requests + 1 },
         [SleepEvent.jitterSleep j]) := rfl

theorem rolled_eq_of_sameDay (now : Int) (st : RateLimiterState)
    (h : dateOf now = st.last_reset) : rolled now st = st := by
  unfold rolled
  rw [h]
  simp

theorem rolled_history (now : Int) (st : RateLimiterState) :
    (rolled now st).request_history = st.request_history := by
  unfold rolled
  split <;> rfl

theorem wif_rejected_of (cfg : ScrapingConfig) (j : Nat) (now : Int) (st : RateLimiterState)
    (h : cfg.max_daily_requests ≤ (rolled now st).daily_requests) :
    wait_if_needed cfg j now st = (Outcome.rejected, rolled now st, []) := by
  rw [wif_unfold]
  simp [h]

theorem wif_rejected_inv (cfg : ScrapingConfig) (j : Nat) (now : Int) (st : RateLimiterState)
    (h : (wait_if_needed cfg j now st).1 = Outcome.rejected) :
    cfg.max_daily_requests ≤ (rolled now st).daily_requests ∧
    wait_if_needed cfg j now st = (Outcome.rejected, rolled now st, []) := by
  by_cases hd : cfg.max_daily_requests ≤ (rolled now st).daily_requests
  · exact ⟨hd, wif_rejected_of cfg j now st hd⟩
  · exfalso
    rw [wif_unfold] at h
    simp only [hd, if_false] at h
    split at h
    · split at h
      · simp at h
      · simp at h
    · simp at h

theorem wif_ok_inv (cfg : ScrapingConfig) (j : Nat) (now : Int) (st : RateLimiterState)
    (h : (wait_if_needed cfg j now st).1 = Outcome.ok) :
    (rolled now st).daily_requests < cfg.max_daily_requests ∧
    (wait_if_needed cfg j now st).2.1.request_history
      = ((rolled now st).request_history.filter (fun t => now - hourSecs < t)) ++ [now] ∧
    (wait_if_needed cfg j now st).2.1.daily_requests = (rolled now st).daily_requests + 1 ∧
    (wait_if_needed cfg j now st).2.1.last_reset = (rolled now st).last_reset := by
  rw [wif_unfold] at h ⊢
  by_cases hd : cfg.max_daily_requests ≤ (rolled now st).daily_requests
  · simp [hd] at h
  · rw [if_neg hd] at h ⊢
    refine ⟨Nat.lt_of_not_le hd, ?_⟩
    by_cases hh : cfg.requests_per_hour ≤
        ((rolled now st).request_history.filter (fun t => now - hourSecs < t)).length
    · rw [if_pos hh] at h ⊢
      cases hmin : listMin ((rolled now st).request_history.filter
          (fun t => now - hourSecs < t)) with
      | none =>
        rw [hmin] at h
        simp at h
      | some oldest =>
        simp
    · rw [if_neg hh]
      simp

theorem wif_last_reset_eq (cfg : ScrapingConfig) (j : Nat) (now : Int) (st : RateLimiterState) :
    (wait_if_needed cfg j now st).2.1.last_reset = (rolled now st).last_reset := by
  rw [wif_unfold]
  split
  · rfl
  · split
    · split <;> rfl
    · rfl

theorem wif_daily_eq (cfg : ScrapingConfig) (j : Nat) (now : Int) (st : RateLimiterState) :
    (wait_if_needed cfg j now st).2.1.daily_requests
      = (rolled now st).daily_requests
        + (if (wait_if_needed cfg j now st).1 = Outcome.ok then 1 else 0) := by
  rw [wif_unfold]
  split
  · simp
  · split
    · split <;> simp
    · simp

theorem countOk_cons (o : Outcome) (sl : List SleepEvent) (rs : List (Outcome × List SleepEvent)) :
    countOk ((o, sl) :: rs) = countOk rs + (if o = Outcome.ok then 1 else 0) := by
  simp [countOk, List.countP_cons]

theorem wif_rejected_sleeps (cfg : ScrapingConfig) (j : Nat) (now : Int)
    (st : RateLimiterState) (h : (wait_if_needed cfg j now st).1 = Outcome.rejected) :
    (wait_if_needed cfg j now st).2.2 = [] := by
  rw [(wif_rejected_inv cfg j now st h).2]

/-- Same-calendar-day invariant of a call sequence: the reset date never
moves, the daily counter advances by exactly the number of successes, and
the successes cannot outrun the remaining daily budget. -/
theorem runAcquires_sameDay (cfg : ScrapingConfig) (calls : List (Int × Nat)) :
    ∀ st : RateLimiterState, (∀ c ∈ calls, dateOf c.1 = st.last_reset) →
    (runAcquires cfg calls st).1.last_reset = st.last_reset ∧
    (runAcquires cfg calls st).1.daily_requests
      = st.daily_requests + countOk (runAcquires cfg calls st).2 ∧
    countOk (runAcquires cfg calls st).2
      ≤ cfg.max_daily_requests - st.daily_requests := by
  induction calls with
  | nil =>
    intro st _
    simp [runAcquires, countOk]
  | cons c rest ih =>
    intro st h
    obtain ⟨now, j⟩ := c
    have hnow : dateOf now = st.last_reset := h (now, j) (by simp)
    have hrest0 : ∀ x ∈ rest, dateOf x.1 = st.last_reset :=
      fun x hx => h x (List.mem_cons_of_mem _ hx)
    rcases hwif : wait_if_needed cfg j now st with ⟨o, st1, sl⟩
    have hlr : st1.last_reset = st.last_reset := by
      have h0 := wif_last_reset_eq cfg j now st
      rw [hwif, rolled_eq_of_sameDay now st hnow] at h0
      simpa using h0
    have hdy : st1.daily_requests
        = st.daily_requests + (if o = Outcome.ok then 1 else 0) := by
      have h0 := wif_daily_eq cfg j now st
      rw [hwif, rolled_eq_of_sameDay now st hnow] at h0
      simpa using h0
    have hoklt : o = Outcome.ok → st.daily_requests < cfg.max_daily_requests := by
      intro ho
      have h1 := (wif_ok_inv cfg j now st (by rw [hwif, ho])).1
      rwa [rolled_eq_of_sameDay now st hnow] at h1
    obtain ⟨ih1, ih2, ih3⟩ := ih st1 (by
      intro x hx
      rw [hlr]
      exact hrest0 x hx)
    simp only [runAcquires, hwif]
    rw [countOk_cons]
    refine ⟨by rw [ih1, hlr], ?_, ?_⟩
    · by_cases ho : o = Outcome.ok
      · simp only [ho, if_pos]
        simp only [ho, if_pos] at hdy
        omega
      · simp only [ho, if_neg, not_false_iff]
        simp only [ho, if_neg, not_false_iff] at hdy
        omega
    · by_cases ho : o = Outcome.ok
      · have hlt := hoklt ho
        simp only [ho, if_pos] at hdy ⊢
        omega
      · simp only [ho, if_neg, not_false_iff] at hdy ⊢
        omega

/-- Every rejected acquisition in a call sequence performed no sleep. -/
theorem runAcquires_rejected_sleeps (cfg : ScrapingConfig) (calls : List (Int × Nat)) :
    ∀ (st : RateLimiterState) r, r ∈ (runAcquires cfg calls st).2 →
      r.1 = Outcome.rejected → r.2 = [] := by
  induction calls with
  | nil =>
    intro st r hr
    simp [runAcquires] at hr
  | cons c rest ih =>
    intro st r hr hrej
    obtain ⟨now, j⟩ := c
    rcases hwif : wait_if_needed cfg j now st with ⟨o, st1, sl⟩
    simp only [runAcquires, hwif] at hr
    rcases List.mem_cons.1 hr with hh | hh
    · subst hh
      simp only at hrej
      have hs := wif_rejected_sleeps cfg j now st (by rw [hwif]; simpa using hrej)
      rw [hwif] at hs
      simpa using hs
    · exact ih st1 r hh hrej

/-- **C2**: within one calendar day, a limiter created that day lets at most
`maxDailyRequests` acquisitions succeed; every rejected acquisition slept
nowhere (the daily-ceiling check precedes the hourly wait and the jitter
sleep), and once the success count has reached the ceiling, a further
same-day call is rejected with the state unchanged and no sleeps. -/
theorem c2_daily_cap (cfg : ScrapingConfig) (calls : List (Int × Nat))
    (st0 : RateLimiterState)
    (hday : ∀ c ∈ calls, dateOf c.1 = st0.last_reset)
    (h0 : st0.daily_requests = 0) :
    countOk (runAcquires cfg calls st0).2 ≤ cfg.max_daily_requests
    ∧ (∀ r ∈ (runAcquires cfg calls st0).2, r.1 = Outcome.rejected → r.2 = [])
    ∧ (∀ (now : Int) (j : Nat), dateOf now = st0.last_reset →
        cfg.max_daily_requests ≤ countOk (runAcquires cfg calls st0).2 →
        wait_if_needed cfg j now (runAcquires cfg calls st0).1
          = (Outcome.rejected, (runAcquires cfg calls st0).1, [])) := by
  obtain ⟨h1, h2, h3⟩ := runAcquires_sameDay cfg calls st0 hday
  refine ⟨by omega, runAcquires_rejected_sleeps cfg calls st0, ?_⟩
  intro now j hnd hge
  have hroll : rolled now (runAcquires cfg calls st0).1 = (runAcquires cfg calls st0).1 :=
    rolled_eq_of_sameDay _ _ (by rw [hnd, h1])
  have hd : cfg.max_daily_requests
      ≤ (rolled now (runAcquires cfg calls st0).1).daily_requests := by
    rw [hroll, h2, h0]
    omega
  have hres := wif_rejected_of cfg j now (runAcquires cfg calls st0).1 hd
  rwa [hroll] at hres

/-- Witness for C2: with a daily cap of 2, three same-day calls yield exactly
2 successes, and a fourth same-day call is rejected with no sleeps. -/
theorem c2_daily_cap_witness :
    countOk (runAcquires cfgK [(0, 0), (1, 0), (2, 0)] (initRateLimiter 0)).2 ≤ 2
    ∧ wait_if_needed cfgK 0 3 (runAcquires cfgK [(0, 0), (1, 0), (2, 0)] (initRateLimiter 0)).1
        = (Outcome.rejected,
           (runAcquires cfgK [(0, 0), (1, 0), (2, 0)] (initRateLimiter 0)).1, []) := by
  have h := c2_daily_cap cfgK [(0, 0), (1, 0), (2, 0)] (initRateLimiter 0)
    (by decide) (by decide)
  exact ⟨h.1, h.2.2 3 0 (by decide) (by decide)⟩

/-- **C3**: on every acquisition, entries older than one hour are evicted
before the occupancy check, so a successful call leaves only trailing-hour
timestamps in the window; when the evicted window still holds at least
`requestsPerHour` entries the caller sleeps `oldest + 1h - now` (when
positive) before the jitter sleep, and otherwise incurs no hourly wait; in
the concrete scenario with `requestsPerHour = 3` and three acquisitions at
`t = 0`, a fourth call at `t = 0` sleeps 3600 s while a fourth call at
`t = 3660 s` (61 min) incurs no hourly wait. -/
theorem c3_hourly_window :
    (∀ (cfg : ScrapingConfig) (j : Nat) (now : Int) (st : RateLimiterState),
       (wait_if_needed cfg j now st).1 = Outcome.ok →
       ∀ t ∈ (wait_if_needed cfg j now st).2.1.request_history, now - hourSecs < t)
    ∧ (∀ (cfg : ScrapingConfig) (j : Nat) (now : Int) (st : RateLimiterState) (oldest : Int),
       (rolled now st).daily_requests < cfg.max_daily_requests →
       cfg.requests_per_hour ≤
         ((rolled now st).request_history.filter (fun t => now - hourSecs < t)).length →
       listMin ((rolled now st).request_history.filter (fun t => now - hourSecs < t))
         = some oldest →
       0 < oldest + hourSecs - now →
       (wait_if_needed cfg j now st).2.2
         = [SleepEvent.hourly (oldest + hourSecs - now), SleepEvent.jitterSleep j])
    ∧ (∀ (cfg : ScrapingConfig) (j : Nat) (now : Int) (st : RateLimiterState),
       (rolled now st).daily_requests < cfg.max_daily_requests →
       ((rolled now st).request_history.filter (fun t => now - hourSecs < t)).length
         < cfg.requests_per_hour →
       (wait_if_needed cfg j now st).2.2 = [SleepEvent.jitterSleep j])
    ∧ st3.request_history = [0, 0, 0]
    ∧ (wait_if_needed cfg3 5 0 st3).2.2
        = [SleepEvent.hourly 3600, SleepEvent.jitterSleep 5]
    ∧ (wait_if_needed cfg3 5 3660 st3).2.2 = [SleepEvent.jitterSleep 5] := by
  refine ⟨?_, ?_, ?_, by decide, by decide, by decide⟩
  · intro cfg j now st h t ht
    obtain ⟨_, hh, _, _⟩ := wif_ok_inv cfg j now st h
    rw [hh] at ht
    rcases List.mem_append.1 ht with hm | hm
    · simp only [List.mem_filter, decide_eq_true_eq] at hm
      exact hm.2
    · simp only [List.mem_singleton] at hm
      subst hm
      simp only [hourSecs]
      omega
  · intro cfg j now st oldest h1 h2 h3 h4
    rw [wif_unfold, if_neg (Nat.not_le.2 h1), if_pos h2, h3]
    simp only
    rw [if_pos h4]
    rfl
  · intro cfg j now st h1 h2
    rw [wif_unfold, if_neg (Nat.not_le.2 h1), if_neg (Nat.not_le.2 h2)]

/-- Witness for C3: the general parts applied to the concrete scenario. -/
theorem c3_hourly_window_witness :
    ((0 : Int) - hourSecs < 0)
    ∧ (wait_if_needed cfg3 5 0 st3).2.2
        = [SleepEvent.hourly ((0 : Int) + hourSecs - 0), SleepEvent.jitterSleep 5]
    ∧ (wait_if_needed cfg3 5 3660 st3).2.2 = [SleepEvent.jitterSleep 5] := by
  refine ⟨?_, ?_, ?_⟩
  · exact c3_hourly_window.1 cfg3 5 0 st3 (by decide) 0 (by decide)
  · exact c3_hourly_window.2.1 cfg3 5 0 st3 0 (by decide) (by decide) (by decide) (by decide)
  · exact c3_hourly_window.2.2.1 cfg3 5 3660 st3 (by decide) (by decide)

/-- **C10**: a daily-ceiling rejection leaves the limiter state exactly at
its post-rollover value — the window is not touched (not even evicted) and
the daily counter is not incremented — while a successful acquisition
appends exactly one timestamp (after eviction) and increments the daily
counter by exactly one. -/
theorem c10_rejected_state_unchanged :
    ∀ (cfg : ScrapingConfig) (j : Nat) (now : Int) (st : RateLimiterState),
    ((wait_if_needed cfg j now st).1 = Outcome.rejected →
       (wait_if_needed cfg j now st).2.1 = rolled now st ∧
       (wait_if_needed cfg j now st).2.1.request_history = st.request_history)
    ∧ ((wait_if_needed cfg j now st).1 = Outcome.ok →
       (wait_if_needed cfg j now st).2.1.request_history
         = ((rolled now st).request_history.filter (fun t => now - hourSecs < t)) ++ [now]
       ∧ (wait_if_needed cfg j now st).2.1.daily_requests
         = (rolled now st).daily_requests + 1) := by
  intro cfg j now st
  constructor
  · intro h
    rw [(wif_rejected_inv cfg j now st h).2]
    exact ⟨rfl, rolled_history now st⟩
  · intro h
    obtain ⟨_, hh, hd, _⟩ := wif_ok_inv cfg j now st h
    exact ⟨hh, hd⟩

/-- Witness for C10: a rejected call on a saturated limiter keeps its state;
a successful call on a fresh limiter bumps the daily count to 1. -/
theorem c10_rejected_state_unchanged_witness :
    (wait_if_needed cfgK 0 20 { request_history := [10], daily_requests := 7, last_reset := 0 }).2.1
      = rolled 20 { request_history := [10], daily_requests := 7, last_reset := 0 }
    ∧ (wait_if_needed cfgK 0 0 (initRateLimiter 0)).2.1.daily_requests
        = (rolled 0 (initRateLimiter 0)).daily_requests + 1 := by
  refine ⟨?_, ?_⟩
  · exact ((c10_rejected_state_unchanged cfgK 0 20
      { request_history := [10], daily_requests := 7, last_reset := 0 }).1 (by decide)).1
  · exact ((c10_rejected_state_unchanged cfgK 0 0 (initRateLimiter 0)).2 (by decide)).2

/-! ### Site-detection lemmas and claims -/

theorem detectGo_eq_findKey (domain : String) :
    ∀ keys : List String,
      detectGo domain keys = (keys.find? (fun k => strContains domain k)).getD "generic" := by
  intro keys
  induction keys with
  | nil => rfl
  | cons k rest ih =>
    by_cases h : strContains domain k
    · simp [detectGo, List.find?, h]
    · simp [detectGo, List.find?, h, ih]

/-- **C9**: site detection is a pure function of the URL's host alone — it
equals the first registered site key occurring as a substring of the
lowercased host (else `"generic"`), so two URLs with the same host detect
identically, `in.linkedin.com` matches the `linkedin.com` profile, and an
unregistered host yields `"generic"`. -/
theorem c9_site_detection_pure :
    (∀ u v : String, netloc u = netloc v → detect_job_site u = detect_job_site v)
    ∧ (∀ url : String,
        detect_job_site url = (firstKeyMatch (strToLower (netloc url))).getD "generic")
    ∧ detect_job_site "https://in.linkedin.com/jobs/123" = "linkedin.com"
    ∧ detect_job_site "https://unknown-site.example.com/job" = "generic" := by
  refine ⟨?_, ?_, by decide, by decide⟩
  · intro u v h
    unfold detect_job_site
    rw [h]
  · intro url
    unfold detect_job_site firstKeyMatch
    exact detectGo_eq_findKey _ site_keys

/-- Witness for C9: host-only dependence at two URLs sharing a host, and the
find-first characterization at the regional-subdomain URL. -/
theorem c9_site_detection_pure_witness :
    detect_job_site "https://jobs.example.org/a" = detect_job_site "https://jobs.example.org/b"
    ∧ detect_job_site "https://in.linkedin.com/jobs/123"
        = (firstKeyMatch (strToLower (netloc "https://in.linkedin.com/jobs/123"))).getD
            "generic" := by
  exact ⟨c9_site_detection_pure.1 _ _ (by decide), c9_site_detection_pure.2.1 _⟩

/-! ### Scrape-pipeline path lemmas -/

theorem scrape_unfold_throw_ctx (cfg : ScrapingConfig) (env : ScrapeEnv) (url : String)
    (now : Int) (j : Nat) (st : RateLimiterState)
    (hctx : env.context_initialized = false) :
    scrape_job_description cfg env url now j st
      = (Except.error Thrown.contextNotInitialized, st) := by
  simp [scrape_job_description, hctx]

theorem scrape_unfold_reject (cfg : ScrapingConfig) (env : ScrapeEnv) (url : String)
    (now : Int) (j : Nat) (st st1 : RateLimiterState) (sl : List SleepEvent)
    (hctx : env.context_initialized = true) (hnp : env.new_page_ok = true)
    (hwif : wait_if_needed cfg j now st = (Outcome.rejected, st1, sl)) :
    scrape_job_description cfg env url now j st
      = (Except.ok (exceptResult url
          (ScrapeError.exceptionMsg "Daily request limit exceeded")), st1) := by
  simp [scrape_job_description, hctx, hnp, hwif]

theorem scrape_unfold_valueError (cfg : ScrapingConfig) (env : ScrapeEnv) (url : String)
    (now : Int) (j : Nat) (st st1 : RateLimiterState) (sl : List SleepEvent)
    (hctx : env.context_initialized = true) (hnp : env.new_page_ok = true)
    (hwif : wait_if_needed cfg j now st = (Outcome.valueError, st1, sl)) :
    scrape_job_description cfg env url now j st
      = (Except.ok (exceptResult url
          (ScrapeError.exceptionMsg "min() arg is an empty sequence")), st1) := by
  simp [scrape_job_description, hctx, hnp, hwif]

theorem scrape_unfold_nav (cfg : ScrapingConfig) (env : ScrapeEnv) (url msg : String)
    (now : Int) (j : Nat) (st st1 : RateLimiterState) (sl : List SleepEvent)
    (hctx : env.context_initialized = true) (hnp : env.new_page_ok = true)
    (hwif : wait_if_needed cfg j now st = (Outcome.ok, st1, sl))
    (hnav : env.nav_error = some msg) :
    scrape_job_description cfg env url now j st
      = (Except.ok (exceptResult url (ScrapeError.exceptionMsg msg)), st1) := by
  simp [scrape_job_description, hctx, hnp, hwif, hnav]

theorem scrape_unfold_blocked (cfg : ScrapingConfig) (env : ScrapeEnv) (url : String)
    (now : Int) (j : Nat) (st st1 : RateLimiterState) (sl : List SleepEvent)
    (hctx : env.context_initialized = true) (hnp : env.new_page_ok = true)
    (hwif : wait_if_needed cfg j now st = (Outcome.ok, st1, sl))
    (hnav : env.nav_error = none)
    (hblk : pageIsBlocked env.page = true) :
    scrape_job_description cfg env url now j st
      = (Except.ok (blockedResult url (siteConfigFor (detect_job_site url)).name), st1) := by
  simp [scrape_job_description, hctx, hnp, hwif, hnav, hblk]

theorem scrape_unfold_normal (cfg : ScrapingConfig) (env : ScrapeEnv) (url : String)
    (now : Int) (j : Nat) (st st1 : RateLimiterState) (sl : List SleepEvent)
    (hctx : env.context_initialized = true) (hnp : env.new_page_ok = true)
    (hwif : wait_if_needed cfg j now st = (Outcome.ok, st1, sl))
    (hnav : env.nav_error = none)
    (hblk : pageIsBlocked env.page = false) :
    scrape_job_description cfg env url now j st
      = (Except.ok
          { url := url
            site := (siteConfigFor (detect_job_site url)).name
            title := extract_text_by_selectors env.page
              (siteConfigFor (detect_job_site url)).title_selectors
            company := extract_text_by_selectors env.page
              (siteConfigFor (detect_job_site url)).company_selectors
            location := extract_text_by_selectors env.page
              (siteConfigFor (detect_job_site url)).location_selectors
            description := (extract_text_by_selectors_with_debug env.page
              (siteConfigFor (detect_job_site url)).description_selectors).1
            modal_closed := some env.modal_closed
            success := (extract_text_by_selectors_with_debug env.page
              (siteConfigFor (detect_job_site url)).description_selectors).1.isSome
            error := if (extract_text_by_selectors_with_debug env.page
                (siteConfigFor (detect_job_site url)).description_selectors).1.isSome then none
              else some (ScrapeError.extractionFailed (extract_text_by_selectors_with_debug
                env.page (siteConfigFor (detect_job_site url)).description_selectors).2)
            access_blocked := none }, st1) := by
  simp [scrape_job_description, hctx, hnp, hwif, hnav, hblk]

/-- **C1** (counterexample): on the end-to-end scenario URL whose host
matches no registered site key and whose DOM holds
`<div class="description">Full job text...</div>`, detection returns
`"generic"`, but the scrape result's site is `"LinkedIn"` (there is no
`generic` profile; the lookup falls back to the LinkedIn entry), its
extraction trace lists exactly the four LinkedIn description selectors, and
the scrape fails instead of extracting the text. -/
theorem c1_counterexample :
    detect_job_site "https://careers.example.com/job/42" = "generic"
    ∧ (scrape_job_description cfgDflt envGeneric "https://careers.example.com/job/42"
        0 0 (initRateLimiter 0)).1
      = Except.ok
        { url := "https://careers.example.com/job/42"
          site := "LinkedIn"
          title := none
          company := none
          location := none
          description := none
          modal_closed := some false
          success := false
          error := some (ScrapeError.extractionFailed
            [TraceEntry.notFound 0 ".description__text--rich",
             TraceEntry.notFound 1 ".description__text",
             TraceEntry.notFound 2 ".jobs-description__content",
             TraceEntry.notFound 3 ".show-more-less-html__markup"])
          access_blocked := none } := by
  exact ⟨by decide, rfl⟩

/-- **C1** (amended): for every URL whose host contains no registered site
key, detection returns the key `"generic"`; but since `SITE_CONFIGS` has no
`generic` entry, scraping such a URL uses the LinkedIn profile as fallback:
the result's site is `"LinkedIn"` and field extraction runs the LinkedIn
profile's selectors. -/
theorem c1_generic_falls_back_to_linkedin :
    ∀ (cfg : ScrapingConfig) (env : ScrapeEnv) (url : String) (now : Int) (j : Nat)
      (st : RateLimiterState),
    detect_job_site url = "generic" →
    env.context_initialized = true → env.new_page_ok = true →
    (wait_if_needed cfg j now st).1 = Outcome.ok →
    env.nav_error = none → pageIsBlocked env.page = false →
    ∃ r, (scrape_job_description cfg env url now j st).1 = Except.ok r
      ∧ r.site = "LinkedIn"
      ∧ r.description = (extract_text_by_selectors_with_debug env.page
          linkedinProfile.description_selectors).1
      ∧ r.title = extract_text_by_selectors env.page linkedinProfile.title_selectors := by
  intro cfg env url now j st hdet hctx hnp hok hnav hblk
  have hcfg : siteConfigFor (detect_job_site url) = linkedinProfile := by
    rw [hdet]
    rfl
  have hw : wait_if_needed cfg j now st
      = (Outcome.ok, (wait_if_needed cfg j now st).2.1, (wait_if_needed cfg j now st).2.2) := by
    rw [← hok]
  have hs := scrape_unfold_normal cfg env url now j st _ _ hctx hnp hw hnav hblk
  refine ⟨_, by rw [hs], ?_, ?_, ?_⟩
  · simp [hcfg, linkedinProfile]
  · simp [hcfg]
  · simp [hcfg]

/-- Witness for C1 (amended): the scenario URL scraped in the benign
environment reports site `"LinkedIn"`. -/
theorem c1_generic_falls_back_to_linkedin_witness :
    ((scrape_job_description cfgDflt envGeneric "https://careers.example.com/job/42"
        0 0 (initRateLimiter 0)).1.toOption.map (fun r => r.site)) = some "LinkedIn" := by
  obtain ⟨r, h1, h2, _, _⟩ := c1_generic_falls_back_to_linkedin cfgDflt envGeneric
    "https://careers.example.com/job/42" 0 0 (initRateLimiter 0)
    (by decide) rfl rfl (by decide) rfl (by decide)
  rw [h1]
  simp [Except.toOption, h2]

/-- **C4** (counterexample): calling the scrape operation without an
initialized browser context raises (`RuntimeError`) instead of returning a
`ScrapeResult`, so not every call returns a result record. -/
theorem c4_counterexample :
    (scrape_job_description cfgDflt
        { envGeneric with context_initialized := false } "https://example.com/j" 0 0
        (initRateLimiter 0)).1
      = Except.error Thrown.contextNotInitialized := rfl

/-- **C4** (amended): provided the browser context is initialized and page
creation succeeds, every scrape call returns a `ScrapeResult` rather than
throwing — rate-limit rejections, navigation failures, hard blocks and
extraction failures are all converted into records with `success = false`
and a populated `error`, while successful extraction yields `error = none`. -/
theorem c4_no_throw_after_init :
    ∀ (cfg : ScrapingConfig) (env : ScrapeEnv) (url : String) (now : Int) (j : Nat)
      (st : RateLimiterState),
    env.context_initialized = true → env.new_page_ok = true →
    ∃ r, (scrape_job_description cfg env url now j st).1 = Except.ok r
      ∧ (r.success = false → r.error.isSome = true)
      ∧ (r.success = true → r.error = none) := by
  intro cfg env url now j st hctx hnp
  rcases hwif : wait_if_needed cfg j now st with ⟨o, st1, sl⟩
  cases o with
  | rejected =>
    rw [scrape_unfold_reject cfg env url now j st st1 sl hctx hnp hwif]
    exact ⟨_, rfl, fun _ => rfl, fun h => by simp [exceptResult] at h⟩
  | valueError =>
    rw [scrape_unfold_valueError cfg env url now j st st1 sl hctx hnp hwif]
    exact ⟨_, rfl, fun _ => rfl, fun h => by simp [exceptResult] at h⟩
  | ok =>
    cases hnav : env.nav_error with
    | some msg =>
      rw [scrape_unfold_nav cfg env url msg now j st st1 sl hctx hnp hwif hnav]
      exact ⟨_, rfl, fun _ => rfl, fun h => by simp [exceptResult] at h⟩
    | none =>
      by_cases hblk : pageIsBlocked env.page = true
      · rw [scrape_unfold_blocked cfg env url now j st st1 sl hctx hnp hwif hnav hblk]
        exact ⟨_, rfl, fun _ => rfl, fun h => by simp [blockedResult] at h⟩
      · rw [scrape_unfold_normal cfg env url now j st st1 sl hctx hnp hwif hnav
          (Bool.not_eq_true _ ▸ hblk)]
        refine ⟨_, rfl, ?_, ?_⟩
        · intro h
          simp only at h ⊢
          rw [h]
          simp [h]
        · intro h
          simp only at h ⊢
          rw [if_pos h]

/-- Witness for C4 (amended): a concrete initialized-context call returns a
result record. -/
theorem c4_no_throw_after_init_witness :
    ((scrape_job_description cfgDflt envLinked "https://www.linkedin.com/jobs/view/1" 0 0
        (initRateLimiter 0)).1.toOption.isSome) = true := by
  obtain ⟨r, h1, _, _⟩ := c4_no_throw_after_init cfgDflt envLinked
    "https://www.linkedin.com/jobs/view/1" 0 0 (initRateLimiter 0) rfl rfl
  rw [h1]
  rfl

/-- **C6**: on the normal path a scrape succeeds exactly when description
extraction produced text — the result's `success` equals
`description.isSome` (so missing title/company/location never fail a
scrape) — and a failed description extraction attaches the per-selector
diagnostic trace to the result's `error`, while success leaves `error`
empty. -/
theorem c6_success_iff_description :
    ∀ (cfg : ScrapingConfig) (env : ScrapeEnv) (url : String) (now : Int) (j : Nat)
      (st : RateLimiterState),
    env.context_initialized = true → env.new_page_ok = true →
    (wait_if_needed cfg j now st).1 = Outcome.ok →
    env.nav_error = none → pageIsBlocked env.page = false →
    ∃ r, (scrape_job_description cfg env url now j st).1 = Except.ok r
      ∧ r.description = (extract_text_by_selectors_with_debug env.page
          (siteConfigFor (detect_job_site url)).description_selectors).1
      ∧ r.success = r.description.isSome
      ∧ (r.description = none →
          r.error = some (ScrapeError.extractionFailed
            (extract_text_by_selectors_with_debug env.page
              (siteConfigFor (detect_job_site url)).description_selectors).2))
      ∧ (r.description.isSome = true → r.error = none) := by
  intro cfg env url now j st hctx hnp hok hnav hblk
  have hw : wait_if_needed cfg j now st
      = (Outcome.ok, (wait_if_needed cfg j now st).2.1, (wait_if_needed cfg j now st).2.2) := by
    rw [← hok]
  have hs := scrape_unfold_normal cfg env url now j st _ _ hctx hnp hw hnav hblk
  refine ⟨_, by rw [hs], rfl, rfl, ?_, ?_⟩
  · intro h
    simp only at h ⊢
    rw [h]
    simp
  · intro h
    simp only at h ⊢
    rw [if_pos h]

/-- Witness for C6: with a DOM whose first LinkedIn description selector has
visible text but no title/company/location, the scrape succeeds. -/
theorem c6_success_iff_description_witness :
    ((scrape_job_description cfgDflt envLinked "https://www.linkedin.com/jobs/view/1" 0 0
        (initRateLimiter 0)).1.toOption.map (fun r => r.success)) = some true := by
  obtain ⟨r, h1, h2, h3, _, _⟩ := c6_success_iff_description cfgDflt envLinked
    "https://www.linkedin.com/jobs/view/1" 0 0 (initRateLimiter 0)
    rfl rfl (by decide) rfl (by decide)
  rw [h1]
  have hsucc : r.success = true := by
    rw [h3, h2]
    decide
  simp [Except.toOption, hsucc]

/-- **C7**: if right after navigation the page title or content contains the
hard-block indicator `"access denied"` (case-insensitively), the scrape
aborts at once with the blocked record: `success = false`, `description`
nil, `access_blocked` set, no modal/extraction fields and no diagnostics
trace — and the engine performs no retry (the call returns immediately). -/
theorem c7_access_blocked_short_circuit :
    ∀ (cfg : ScrapingConfig) (env : ScrapeEnv) (url : String) (now : Int) (j : Nat)
      (st : RateLimiterState),
    env.context_initialized = true → env.new_page_ok = true →
    (wait_if_needed cfg j now st).1 = Outcome.ok →
    env.nav_error = none →
    (strContains (strToLower env.page.title) "access denied" = true
      ∨ strContains (strToLower env.page.content) "access denied" = true) →
    (scrape_job_description cfg env url now j st).1
      = Except.ok (blockedResult url (siteConfigFor (detect_job_site url)).name)
    ∧ (blockedResult url (siteConfigFor (detect_job_site url)).name).success = false
    ∧ (blockedResult url (siteConfigFor (detect_job_site url)).name).description = none
    ∧ (blockedResult url (siteConfigFor (detect_job_site url)).name).access_blocked
        = some true
    ∧ (blockedResult url (siteConfigFor (detect_job_site url)).name).modal_closed = none
    ∧ (blockedResult url (siteConfigFor (detect_job_site url)).name).error
        = some (ScrapeError.blockedMsg (siteConfigFor (detect_job_site url)).name) := by
  intro cfg env url now j st hctx hnp hok hnav hind
  have hmem : "access denied" ∈ access_denied_indicators := by
    simp [access_denied_indicators]
  have hblk : pageIsBlocked env.page = true := by
    unfold pageIsBlocked
    rw [Bool.or_eq_true]
    rcases hind with h | h
    · exact Or.inl (List.any_eq_true.2 ⟨_, hmem, h⟩)
    · exact Or.inr (List.any_eq_true.2 ⟨_, hmem, h⟩)
  have hw : wait_if_needed cfg j now st
      = (Outcome.ok, (wait_if_needed cfg j now st).2.1, (wait_if_needed cfg j now st).2.2) := by
    rw [← hok]
  have hs := scrape_unfold_blocked cfg env url now j st _ _ hctx hnp hw hnav hblk
  exact ⟨by rw [hs], rfl, rfl, rfl, rfl, rfl⟩

/-- Witness for C7: a page announcing `ACCESS DENIED` in its content is
short-circuited to the blocked record. -/
theorem c7_access_blocked_short_circuit_witness :
    (scrape_job_description cfgDflt envDenied "https://www.indeed.com/viewjob?jk=1" 0 0
        (initRateLimiter 0)).1
      = Except.ok (blockedResult "https://www.indeed.com/viewjob?jk=1"
          (siteConfigFor (detect_job_site "https://www.indeed.com/viewjob?jk=1")).name) := by
  exact (c7_access_blocked_short_circuit cfgDflt envDenied
    "https://www.indeed.com/viewjob?jk=1" 0 0 (initRateLimiter 0)
    rfl rfl (by decide) rfl (Or.inr (by decide))).1

/-! ### Bot-challenge loop lemmas and claim -/

theorem cfGo_clear (pages : Nat → PageSnapshot) :
    ∀ (fuel attempt : Nat) (sleeps : List Nat) (i : Nat), i < fuel →
    (∀ k, k < i → pageIsCloudflare (pages (attempt + k)) = true) →
    pageIsCloudflare (pages (attempt + i)) = false →
    cfGo pages fuel attempt sleeps = (true, sleeps ++ List.replicate i 5000) := by
  intro fuel
  induction fuel with
  | zero =>
    intro attempt sleeps i hi
    omega
  | succ f ihf =>
    intro attempt sleeps i hi hall hclr
    cases i with
    | zero =>
      have h0 : pageIsCloudflare (pages attempt) = false := by simpa using hclr
      simp [cfGo, h0]
    | succ i =>
      have h0 : pageIsCloudflare (pages attempt) = true := by
        have := hall 0 (Nat.succ_pos i)
        simpa using this
      have hrec := ihf (attempt + 1) (sleeps ++ [5000]) i (by omega)
        (by
          intro k hk
          have := hall (k + 1) (by omega)
          rwa [show attempt + (k + 1) = attempt + 1 + k by omega] at this)
        (by rwa [show attempt + 1 + i = attempt + (i + 1) by omega])
      simp only [cfGo, h0, if_true]
      rw [hrec, List.append_assoc]
      simp [List.replicate_succ]

theorem cfGo_exhaust (pages : Nat → PageSnapshot) :
    ∀ (fuel attempt : Nat) (sleeps : List Nat),
    (∀ k, k < fuel → pageIsCloudflare (pages (attempt + k)) = true) →
    cfGo pages fuel attempt sleeps = (false, sleeps ++ List.replicate fuel 5000) := by
  intro fuel
  induction fuel with
  | zero =>
    intro attempt sleeps _
    simp [cfGo]
  | succ f ihf =>
    intro attempt sleeps hall
    have h0 : pageIsCloudflare (pages attempt) = true := by
      have := hall 0 (Nat.succ_pos f)
      simpa using this
    have hrec := ihf (attempt + 1) (sleeps ++ [5000]) (by
      intro k hk
      have := hall (k + 1) (by omega)
      rwa [show attempt + (k + 1) = attempt + 1 + k by omega] at this)
    simp only [cfGo, h0, if_true]
    rw [hrec, List.append_assoc]
    simp [List.replicate_succ]

/-- **C8**: the bot-challenge handler polls page title and content for the
challenge indicators at most 6 times with 5000 ms sleeps between attempts,
returns `true` at the first clear inspection (having slept once per failed
attempt before it), returns `false` once all 6 attempts saw a challenge —
and a `false` return does not abort the scrape: modal dismissal and field
extraction still run and the result is produced as usual. -/
theorem c8_bot_challenge_poll :
    (∀ (pages : Nat → PageSnapshot) (i : Nat), i < 6 →
       (∀ k, k < i → pageIsCloudflare (pages k) = true) →
       pageIsCloudflare (pages i) = false →
       handle_cloudflare_verification pages = (true, List.replicate i 5000))
    ∧ (∀ pages : Nat → PageSnapshot,
       (∀ k, k < 6 → pageIsCloudflare (pages k) = true) →
       handle_cloudflare_verification pages = (false, List.replicate 6 5000))
    ∧ (∀ (cfg : ScrapingConfig) (env : ScrapeEnv) (url : String) (now : Int) (j : Nat)
        (st : RateLimiterState),
       env.context_initialized = true → env.new_page_ok = true →
       (wait_if_needed cfg j now st).1 = Outcome.ok →
       env.nav_error = none → pageIsBlocked env.page = false →
       (handle_cloudflare_verification env.cfPages).1 = false →
       ∃ r, (scrape_job_description cfg env url now j st).1 = Except.ok r
         ∧ r.description = (extract_text_by_selectors_with_debug env.page
             (siteConfigFor (detect_job_site url)).description_selectors).1
         ∧ r.modal_closed = some env.modal_closed) := by
  refine ⟨?_, ?_, ?_⟩
  · intro pages i hi hall hclr
    have h := cfGo_clear pages 6 0 [] i hi
      (by
        intro k hk
        simpa using hall k hk)
      (by simpa using hclr)
    simpa [handle_cloudflare_verification] using h
  · intro pages hall
    have h := cfGo_exhaust pages 6 0 []
      (by
        intro k hk
        simpa using hall k hk)
    simpa [handle_cloudflare_verification] using h
  · intro cfg env url now j st hctx hnp hok hnav hblk _
    have hw : wait_if_needed cfg j now st
        = (Outcome.ok, (wait_if_needed cfg j now st).2.1,
           (wait_if_needed cfg j now st).2.2) := by
      rw [← hok]
    have hs := scrape_unfold_normal cfg env url now j st _ _ hctx hnp hw hnav hblk
    exact ⟨_, by rw [hs], rfl, rfl⟩

/-- Witness for C8: a permanently-challenged poll sequence exhausts all 6
attempts (6 sleeps of 5000 ms) and returns `false`, yet the scrape of the
same environment still extracts the description. -/
theorem c8_bot_challenge_poll_witness :
    handle_cloudflare_verification envCF.cfPages = (false, List.replicate 6 5000)
    ∧ ((scrape_job_description cfgDflt envCF "https://www.linkedin.com/jobs/view/2" 0 0
        (initRateLimiter 0)).1.toOption.map (fun r => r.description))
      = some (some "Great job") := by
  constructor
  · exact c8_bot_challenge_poll.2.1 envCF.cfPages (by decide)
  · obtain ⟨r, h1, h2, _⟩ := c8_bot_challenge_poll.2.2 cfgDflt envCF
      "https://www.linkedin.com/jobs/view/2" 0 0 (initRateLimiter 0)
      rfl rfl (by decide) rfl (by decide) (by decide)
    rw [h1]
    have hd : r.description = some "Great job" := by
      rw [h2]
      decide
    simp [Except.toOption, hd]

/-! ### Extraction-engine lemmas and claim -/

theorem extractDebugGo_cons (page : Page) (sel : String) (rest : List String)
    (i : Nat) (acc : List TraceEntry) :
    extractDebugGo page (sel :: rest) i acc =
      if (page.query sel).raises then
        extractDebugGo page rest (i + 1) (acc ++ [TraceEntry.errorNote i (page.query sel).raiseMsg])
      else if (page.query sel).count = 0 then
        extractDebugGo page rest (i + 1) (acc ++ [TraceEntry.notFound i sel])
      else if (page.query sel).firstVisible then
        if (page.query sel).firstText != "" && strTrim (page.query sel).firstText != "" then
          (some (strTrim (page.query sel).firstText),
           (acc ++ [TraceEntry.found i sel (page.query sel).count])
             ++ [TraceEntry.success i (page.query sel).firstText.length])
        else
          extractDebugGo page rest (i + 1)
            ((acc ++ [TraceEntry.found i sel (page.query sel).count]) ++ [TraceEntry.emptyText i])
      else
        extractDebugGo page rest (i + 1)
          ((acc ++ [TraceEntry.found i sel (page.query sel).count]) ++ [TraceEntry.notVisible i]) := rfl

theorem extractDebugGo_mem_acc (page : Page) :
    ∀ (sels : List String) (i : Nat) (acc : List TraceEntry) (e : TraceEntry),
      e ∈ acc → e ∈ (extractDebugGo page sels i acc).2 := by
  intro sels
  induction sels with
  | nil =>
    intro i acc e he
    simpa [extractDebugGo] using he
  | cons sel rest ih =>
    intro i acc e he
    rw [extractDebugGo_cons]
    by_cases hr : (page.query sel).raises = true
    · rw [if_pos hr]
      exact ih _ _ _ (List.mem_append_left _ he)
    · rw [if_neg hr]
      by_cases hc : (page.query sel).count = 0
      · rw [if_pos hc]
        exact ih _ _ _ (List.mem_append_left _ he)
      · rw [if_neg hc]
        by_cases hv : (page.query sel).firstVisible = true
        · rw [if_pos hv]
          by_cases ht : ((page.query sel).firstText != ""
              && strTrim (page.query sel).firstText != "") = true
          · rw [if_pos ht]
            simp [he]
          · rw [if_neg ht]
            exact ih _ _ _ (by simp [he])
        · rw [if_neg hv]
          exact ih _ _ _ (by simp [he])

theorem extractDebugGo_all_fail (page : Page) :
    ∀ (sels : List String) (i : Nat) (acc : List TraceEntry),
    (∀ sel ∈ sels, selSucceeds page sel = false) →
    (extractDebugGo page sels i acc).1 = none ∧
    (∀ d, i ≤ d → d < i + sels.length →
      ∃ e ∈ (extractDebugGo page sels i acc).2, traceIdx e = d) := by
  intro sels
  induction sels with
  | nil =>
    intro i acc _
    refine ⟨rfl, ?_⟩
    intro d hd1 hd2
    simp only [List.length_nil] at hd2
    omega
  | cons sel rest ih =>
    intro i acc hall
    have hq0 : selSucceeds page sel = false := hall sel (by simp)
    have hrest : ∀ s ∈ rest, selSucceeds page s = false :=
      fun s hs => hall s (by simp [hs])
    have hlen : (sel :: rest).length = rest.length + 1 := by simp
    have step : ∀ acc' : List TraceEntry, (∃ e ∈ acc', traceIdx e = i) →
        (extractDebugGo page rest (i + 1) acc').1 = none ∧
        (∀ d, i ≤ d → d < i + (sel :: rest).length →
          ∃ e ∈ (extractDebugGo page rest (i + 1) acc').2, traceIdx e = d) := by
      intro acc' hex
      obtain ⟨g1, g2⟩ := ih (i + 1) acc' hrest
      refine ⟨g1, ?_⟩
      intro d hd1 hd2
      by_cases hdi : d = i
      · subst hdi
        obtain ⟨a, hmem, ha⟩ := hex
        exact ⟨a, extractDebugGo_mem_acc page rest _ acc' a hmem, ha⟩
      · exact g2 d (by omega) (by omega)
    rw [extractDebugGo_cons]
    by_cases hr : (page.query sel).raises = true
    · rw [if_pos hr]
      exact step _ ⟨TraceEntry.errorNote i (page.query sel).raiseMsg, by simp, rfl⟩
    · rw [if_neg hr]
      by_cases hc : (page.query sel).count = 0
      · rw [if_pos hc]
        exact step _ ⟨TraceEntry.notFound i sel, by simp, rfl⟩
      · rw [if_neg hc]
        by_cases hv : (page.query sel).firstVisible = true
        · rw [if_pos hv]
          by_cases ht : ((page.query sel).firstText != ""
              && strTrim (page.query sel).firstText != "") = true
          · exfalso
            have hr' : (page.query sel).raises = false := by
              revert hr
              cases (page.query sel).raises <;> simp
            rw [Bool.and_eq_true] at ht
            have hst : selSucceeds page sel = true := by
              simp [selSucceeds, hr', hc, hv, ht.1, ht.2]
            rw [hst] at hq0
            simp at hq0
          · rw [if_neg ht]
            exact step _ ⟨TraceEntry.emptyText i, by simp, rfl⟩
        · rw [if_neg hv]
          exact step _ ⟨TraceEntry.notVisible i, by simp, rfl⟩

theorem extractDebugGo_first_success (page : Page) :
    ∀ (sels : List String) (p : Nat) (hp : p < sels.length) (i : Nat)
      (acc : List TraceEntry),
    (∀ q (hq : q < p), selSucceeds page (sels.get ⟨q, hq.trans hp⟩) = false) →
    selSucceeds page (sels.get ⟨p, hp⟩) = true →
    (∀ e ∈ acc, traceIdx e < i) →
    (extractDebugGo page sels i acc).1
        = some (strTrim (page.query (sels.get ⟨p, hp⟩)).firstText)
    ∧ TraceEntry.success (i + p) ((page.query (sels.get ⟨p, hp⟩)).firstText.length)
        ∈ (extractDebugGo page sels i acc).2
    ∧ (∀ e ∈ (extractDebugGo page sels i acc).2, traceIdx e ≤ i + p)
    ∧ (∀ d, i ≤ d → d ≤ i + p →
        ∃ e ∈ (extractDebugGo page sels i acc).2, traceIdx e = d) := by
  intro sels
  induction sels with
  | nil =>
    intro p hp
    simp at hp
  | cons sel rest ih =>
    intro p hp i acc hfails hsucc hacc
    cases p with
    | zero =>
      have hs : selSucceeds page sel = true := by simpa using hsucc
      simp only [selSucceeds, Bool.and_eq_true, Bool.not_eq_true',
        decide_eq_false_iff_not] at hs
      obtain ⟨⟨⟨hr', hc'⟩, hv'⟩, ht1, ht2⟩ := hs
      rw [extractDebugGo_cons, if_neg (by simp [hr']), if_neg hc', if_pos hv',
        if_pos (by rw [Bool.and_eq_true]; exact ⟨ht1, ht2⟩)]
      refine ⟨by simp, by simp, ?_, ?_⟩
      · intro e he
        simp only [List.mem_append, List.mem_singleton] at he
        rcases he with (he | he) | he
        · exact Nat.le_of_lt (Nat.lt_of_lt_of_le (hacc e he) (by omega))
        · subst he
          simp [traceIdx]
        · subst he
          simp [traceIdx]
      · intro d hd1 hd2
        have hdi : d = i := by omega
        subst hdi
        exact ⟨TraceEntry.success d ((page.query sel).firstText.length), by simp, rfl⟩
    | succ p' =>
      have hp' : p' < rest.length := by
        have := hp
        simp only [List.length_cons] at this
        omega
      have hfails' : ∀ q (hq : q < p'), selSucceeds page (rest.get ⟨q, hq.trans hp'⟩) = false := by
        intro q hq
        have := hfails (q + 1) (Nat.succ_lt_succ hq)
        simpa using this
      have hsucc' : selSucceeds page (rest.get ⟨p', hp'⟩) = true := by
        simpa using hsucc
      have hq0 : selSucceeds page sel = false := by
        simpa using hfails 0 (Nat.succ_pos p')
      have step : ∀ acc' : List TraceEntry,
          (∀ e ∈ acc', traceIdx e < i + 1) →
          (∃ e ∈ acc', traceIdx e = i) →
          (extractDebugGo page rest (i + 1) acc').1
              = some (strTrim (page.query (rest.get ⟨p', hp'⟩)).firstText)
          ∧ TraceEntry.success (i + (p' + 1))
              ((page.query (rest.get ⟨p', hp'⟩)).firstText.length)
              ∈ (extractDebugGo page rest (i + 1) acc').2
          ∧ (∀ e ∈ (extractDebugGo page rest (i + 1) acc').2, traceIdx e ≤ i + (p' + 1))
          ∧ (∀ d, i ≤ d → d ≤ i + (p' + 1) →
              ∃ e ∈ (extractDebugGo page rest (i + 1) acc').2, traceIdx e = d) := by
        intro acc' hacc' hex
        obtain ⟨g1, g2, g3, g4⟩ := ih p' hp' (i + 1) acc' hfails' hsucc' hacc'
        have hidx : i + 1 + p' = i + (p' + 1) := by omega
        refine ⟨g1, by rwa [hidx] at g2, ?_, ?_⟩
        · intro e he
          have := g3 e he
          omega
        · intro d hd1 hd2
          by_cases hdi : d = i
          · subst hdi
            obtain ⟨a, hmem, ha⟩ := hex
            exact ⟨a, extractDebugGo_mem_acc page rest _ acc' a hmem, ha⟩
          · exact g4 d (by omega) (by omega)
      have haccx : ∀ (a : TraceEntry), traceIdx a = i →
          ∀ e ∈ acc ++ [a], traceIdx e < i + 1 := by
        intro a ha e he
        rcases List.mem_append.1 he with h | h
        · exact Nat.lt_succ_of_lt (hacc e h)
        · simp only [List.mem_singleton] at h
          subst h
          omega
      rw [extractDebugGo_cons]
      by_cases hr : (page.query sel).raises = true
      · rw [if_pos hr]
        exact step _ (haccx _ rfl) ⟨TraceEntry.errorNote i (page.query sel).raiseMsg, by simp, rfl⟩
      · rw [if_neg hr]
        by_cases hc : (page.query sel).count = 0
        · rw [if_pos hc]
          exact step _ (haccx _ rfl) ⟨TraceEntry.notFound i sel, by simp, rfl⟩
        · rw [if_neg hc]
          by_cases hv : (page.query sel).firstVisible = true
          · rw [if_pos hv]
            by_cases ht : ((page.query sel).firstText != ""
                && strTrim (page.query sel).firstText != "") = true
            · exfalso
              have hr' : (page.query sel).raises = false := by
                revert hr
                cases (page.query sel).raises <;> simp
              rw [Bool.and_eq_true] at ht
              have hst : selSucceeds page sel = true := by
                simp [selSucceeds, hr', hc, hv, ht.1, ht.2]
              rw [hst] at hq0
              simp at hq0
            · rw [if_neg ht]
              refine step _ ?_ ⟨TraceEntry.emptyText i, by simp, rfl⟩
              intro e he
              simp only [List.mem_append, List.mem_singleton] at he
              rcases he with (he | he) | he
              · exact Nat.lt_succ_of_lt (hacc e he)
              · subst he
                simp [traceIdx]
              · subst he
                simp [traceIdx]
          · rw [if_neg hv]
            refine step _ ?_ ⟨TraceEntry.notVisible i, by simp, rfl⟩
            intro e he
            simp only [List.mem_append, List.mem_singleton] at he
            rcases he with (he | he) | he
            · exact Nat.lt_succ_of_lt (hacc e he)
            · subst he
              simp [traceIdx]
            · subst he
              simp [traceIdx]

/-- **C5**: `extract_text_by_selectors_with_debug` tries selectors strictly
in list order.  If no selector succeeds, it returns `none` together with a
trace holding an entry for every selector.  If `p` is the first succeeding
selector (non-zero match count, visible, non-empty trimmed text, no raise),
the call returns that selector's trimmed text immediately, the trace carries
a success entry naming index `p`, every trace entry refers to a selector
index `≤ p` (no later selector is attempted), and every index up to `p` has
a diagnostic entry. -/
theorem c5_extraction_fallback_order :
    (∀ (page : Page) (selectors : List String),
      (∀ sel ∈ selectors, selSucceeds page sel = false) →
      (extract_text_by_selectors_with_debug page selectors).1 = none ∧
      (∀ d, d < selectors.length →
        ∃ e ∈ (extract_text_by_selectors_with_debug page selectors).2, traceIdx e = d))
    ∧ (∀ (page : Page) (selectors : List String) (p : Nat) (hp : p < selectors.length),
      (∀ q (hq : q < p), selSucceeds page (selectors.get ⟨q, hq.trans hp⟩) = false) →
      selSucceeds page (selectors.get ⟨p, hp⟩) = true →
      (extract_text_by_selectors_with_debug page selectors).1
          = some (strTrim (page.query (selectors.get ⟨p, hp⟩)).firstText)
      ∧ TraceEntry.success p ((page.query (selectors.get ⟨p, hp⟩)).firstText.length)
          ∈ (extract_text_by_selectors_with_debug page selectors).2
      ∧ (∀ e ∈ (extract_text_by_selectors_with_debug page selectors).2, traceIdx e ≤ p)
      ∧ (∀ d, d ≤ p →
          ∃ e ∈ (extract_text_by_selectors_with_debug page selectors).2, traceIdx e = d)) := by
  constructor
  · intro page selectors hall
    obtain ⟨h1, h2⟩ := extractDebugGo_all_fail page selectors 0 [] hall
    exact ⟨h1, fun d hd => h2 d (Nat.zero_le d) (by omega)⟩
  · intro page selectors p hp hfails hsucc
    obtain ⟨h1, h2, h3, h4⟩ := extractDebugGo_first_success page selectors p hp 0 []
      hfails hsucc (by simp)
    refine ⟨h1, by simpa using h2, ?_, ?_⟩
    · intro e he
      have := h3 e he
      omega
    · intro d hd
      obtain ⟨e, hmem, hei⟩ := h4 d (Nat.zero_le d) (by omega)
      exact ⟨e, hmem, hei⟩

/-- Witness for C5: on selectors `[.a, .b, .c]` where only `.b` succeeds,
extraction returns `.b`'s trimmed text and the trace records the success at
index 1. -/
theorem c5_extraction_fallback_order_witness :
    (extract_text_by_selectors_with_debug pageABC [".a", ".b", ".c"]).1
      = some (strTrim (pageABC.query ".b").firstText)
    ∧ TraceEntry.success 1 ((pageABC.query ".b").firstText.length)
        ∈ (extract_text_by_selectors_with_debug pageABC [".a", ".b", ".c"]).2 := by
  have h := c5_extraction_fallback_order.2 pageABC [".a", ".b", ".c"] 1 (by decide)
    (by
      intro q hq
      have hq0 : q = 0 := by omega
      subst hq0
      show selSucceeds pageABC ".a" = false
      decide)
    (by decide)
  exact ⟨h.1, h.2.1⟩

end JobSeeker
